import Mathlib

/-!
Verification development for the Solana Tracker MCP server build artifact
(src/build/index.js).  The program registers a static tool catalog for the
list-tools request and a call-tool dispatcher that forwards each recognized
tool name to one HTTP GET against a fixed upstream base URL, carrying a
static API-key header.  The embedding below transcribes the catalog entries
(names, declared parameter names in order, required lists; descriptions and
primitive types are elided as claim-irrelevant), and models the dispatcher
switch case by case, including its defects: the switch covers only twelve of
the thirty-three catalog names, the twelfth case is syntactically truncated
in the source and is modelled from its visible structure, there is no
default case, and the get_latest_tokens catch clause has an empty branch for
axios errors, through which execution falls into the following
get_trending_tokens case.  Argument values are modelled as strings, matching the string
examples exercised by the specification; a JavaScript template literal
renders a missing argument as the literal text "undefined".
-/

namespace SolanaTracker

/-- Opaque JSON payloads: the dispatcher never inspects a response body, it
passes the parsed value through verbatim. -/
inductive Json where
  | null
  | bool (b : Bool)
  | num (n : Int)
  | str (s : String)
  | arr (elems : List Json)
  | obj (fields : List (String × Json))

/-- HTTP verbs.  Only get is ever used by the program; the constructor post
exists so that the GET-only invariant is not true by type. -/
inductive HttpMethod where
  | get
  | post
deriving DecidableEq

/-- Arguments of a tool invocation: the request.params.arguments object,
a finite map from parameter name to (string) value. -/
abbrev Args := List (String × String)

/-- JavaScript property access on the arguments object: the first binding
for the key, or none when the property is absent. -/
def jsLookup (args : Args) (key : String) : Option String :=
  (args.find? (fun p => p.fst == key)).map (fun p => p.snd)

/-- JavaScript template-literal stringification of an argument value as used
in the path templates: a present string interpolates raw, with no
URL-encoding; an absent value (undefined) prints as the text "undefined". -/
def jsInterp : Option String → String
  | none => "undefined"
  | some s => s

/-- Configuration of the axios instance created once at process start
(axios.create at src/build/index.js lines 9-14). -/
structure Config where
  baseURL : String
  headers : List (String × String)

/-- Mirrors axios.create with the fixed base URL and the static x-api-key
header taken from the environment. -/
def mkConfig (apiKey : String) : Config :=
  { baseURL := "https://data.solanatracker.io"
    headers := [("x-api-key", apiKey)] }

/-- One outbound HTTP request as assembled by axiosInstance.get: the
instance configuration plus a path and a serialized query. -/
structure Request where
  method : HttpMethod
  baseURL : String
  headers : List (String × String)
  path : String
  query : List (String × String)
deriving DecidableEq

/-- Request construction of axiosInstance.get: always the GET verb, always
the instance base URL and headers. -/
def mkGet (cfg : Config) (path : String) (query : List (String × String)) : Request :=
  { method := HttpMethod.get
    baseURL := cfg.baseURL
    headers := cfg.headers
    path := path
    query := query }

/-- Outcome of one outbound call as seen by the awaiting code: either a
response object with a status, a status text and a parsed JSON body, or an
axios transport-level failure (for which axios.isAxiosError is true). -/
inductive UpstreamOutcome where
  | response (status : Nat) (statusText : String) (body : Json)
  | transportError (message : String)

/-- The upstream world: what each issued request comes back as. -/
abbrev Upstream := Request → UpstreamOutcome

/-- What one call-tool invocation produces: a returned content payload, a
thrown McpError (code and message), a thrown non-McpError exception, or no
result at all (the handler falls off the switch and returns undefined). -/
inductive ToolOutcome where
  | success (payload : Json)
  | mcpError (code : Int) (message : String)
  | thrown (message : String)
  | noResult

/-- The one error code the program ever passes to the McpError constructor:
ErrorCode.InternalError of the MCP SDK, the JSON-RPC internal-error code. -/
def ErrorCode.internalError : Int := -32603

/-- Message property of an McpError of the MCP SDK: the SDK prefixes the
given message with the code. -/
def mcpErrorMessage (code : Int) (msg : String) : String :=
  "MCP error " ++ toString code ++ ": " ++ msg

/-- Serialization of the axios params object: object keys in declared
order, properties whose value is undefined are omitted entirely. -/
def axiosParams (args : Args) (names : List String) : List (String × String) :=
  names.filterMap (fun n => (jsLookup args n).map (fun v => (n, v)))

/-- Declared key order of the params object of the search_tokens case
(src/build/index.js lines 834-859). -/
def searchParamNames : List String :=
  ["query", "page", "limit", "sortBy", "sortOrder", "showAllPools",
   "minCreatedAt", "maxCreatedAt", "minLiquidity", "maxLiquidity",
   "minMarketCap", "maxMarketCap", "minBuys", "maxBuys", "minSells",
   "maxSells", "minTotalTransactions", "maxTotalTransactions", "lpBurn",
   "market", "freezeAuthority", "mintAuthority", "deployer",
   "showPriceChanges"]

/-- Shared text of the well-formed dispatch cases, which are identical
except for path and params: await axiosInstance.get; a non-200 status
throws an McpError naming status and status text, but that throw is caught
by the same catch clause, where axios.isAxiosError of an McpError is false,
so the else branch rewraps it as an Unknown-error McpError; an axios
transport failure is wrapped as a Solana-Tracker-API-error McpError; a 200
response returns the body as the json content, untouched.  Every path
issues exactly the one request. -/
def standardCase (cfg : Config) (path : String) (query : List (String × String))
    (u : Upstream) : ToolOutcome × List Request :=
  match u (mkGet cfg path query) with
  | UpstreamOutcome.response status statusText body =>
      if status ≠ 200 then
        (ToolOutcome.mcpError ErrorCode.internalError
          ("Unknown error: " ++ mcpErrorMessage ErrorCode.internalError
            ("Solana Tracker API returned status code: " ++ toString status
              ++ ": " ++ statusText)),
         [mkGet cfg path query])
      else
        (ToolOutcome.success body, [mkGet cfg path query])
  | UpstreamOutcome.transportError msg =>
      (ToolOutcome.mcpError ErrorCode.internalError
        ("Solana Tracker API error: " ++ msg),
       [mkGet cfg path query])

/-- The get_latest_tokens case (src/build/index.js lines 877-899).  It
differs from the others in one place: the catch clause tests
axios.isAxiosError and its then-branch is empty, so an axios transport
failure is silently swallowed; the case block then completes without a
return or a throw, and by switch semantics execution falls through into
the next case label, which is get_trending_tokens (line 900): a second GET
to the trending path is issued and that case determines the surfaced
outcome.  The trending case body is the shared standard text, here with
the trending path and no params, and the already-issued latest request is
prepended to the request log.  A non-200 status on the latest request is
rewrapped as in the standard cases. -/
def latestTokensCase (cfg : Config) (query : List (String × String))
    (u : Upstream) : ToolOutcome × List Request :=
  match u (mkGet cfg "/tokens/latest" query) with
  | UpstreamOutcome.response status statusText body =>
      if status ≠ 200 then
        (ToolOutcome.mcpError ErrorCode.internalError
          ("Unknown error: " ++ mcpErrorMessage ErrorCode.internalError
            ("Solana Tracker API returned status code: " ++ toString status
              ++ ": " ++ statusText)),
         [mkGet cfg "/tokens/latest" query])
      else
        (ToolOutcome.success body, [mkGet cfg "/tokens/latest" query])
  | UpstreamOutcome.transportError _ =>
      ((standardCase cfg "/tokens/trending" [] u).1,
       mkGet cfg "/tokens/latest" query :: (standardCase cfg "/tokens/trending" [] u).2)

/-- The get_tokens_multi_graduated case (src/build/index.js lines 977-986)
is syntactically truncated in the source: the McpError message literal is
cut off mid-construction and the remainder of the file is missing.
Modelled from its visible structure: the GET is issued; the 200 path has no
return statement, so the case falls through and the handler returns
undefined; a non-200 status throws an McpError whose message is the visible
truncated prefix; the case has try and finally but no catch clause, so a
transport failure propagates out of the handler as a raw non-McpError
exception. -/
def multiGraduatedCase (cfg : Config) (u : Upstream) : ToolOutcome × List Request :=
  match u (mkGet cfg "/tokens/multi/graduated" []) with
  | UpstreamOutcome.response status _ _ =>
      if status ≠ 200 then
        (ToolOutcome.mcpError ErrorCode.internalError "Solana Tracker API",
         [mkGet cfg "/tokens/multi/graduated" []])
      else
        (ToolOutcome.noResult, [mkGet cfg "/tokens/multi/graduated" []])
  | UpstreamOutcome.transportError msg =>
      (ToolOutcome.thrown msg, [mkGet cfg "/tokens/multi/graduated" []])

/-- The call-tool dispatcher (src/build/index.js lines 727-990): a switch on
request.params.name with twelve case labels and no default case, so an
unmatched name falls through and the handler returns undefined having
issued no request.  Path parameters are interpolated raw into template
literals; query parameters go through the axios params object. -/
def invoke (cfg : Config) (name : String) (args : Args) (u : Upstream) :
    ToolOutcome × List Request :=
  if name = "get_token_information" then
    standardCase cfg ("/tokens/" ++ jsInterp (jsLookup args "tokenAddress")) [] u
  else if name = "get_token_information_by_pool" then
    standardCase cfg ("/tokens/by-pool/" ++ jsInterp (jsLookup args "poolAddress")) [] u
  else if name = "get_token_holders_top" then
    standardCase cfg ("/tokens/" ++ jsInterp (jsLookup args "tokenAddress") ++ "/holders/top") [] u
  else if name = "get_token_ath" then
    standardCase cfg ("/tokens/" ++ jsInterp (jsLookup args "tokenAddress") ++ "/ath") [] u
  else if name = "get_tokens_created_by_wallet" then
    standardCase cfg ("/deployer/" ++ jsInterp (jsLookup args "wallet")) [] u
  else if name = "search_tokens" then
    standardCase cfg "/search" (axiosParams args searchParamNames) u
  else if name = "get_latest_tokens" then
    latestTokensCase cfg (axiosParams args ["page"]) u
  else if name = "get_trending_tokens" then
    standardCase cfg "/tokens/trending" [] u
  else if name = "get_trending_tokens_timeframe" then
    standardCase cfg ("/tokens/trending/" ++ jsInterp (jsLookup args "timeframe")) [] u
  else if name = "get_tokens_volume" then
    standardCase cfg "/tokens/volume" [] u
  else if name = "get_tokens_multi_all" then
    standardCase cfg "/tokens/multi/all" [] u
  else if name = "get_tokens_multi_graduated" then
    multiGraduatedCase cfg u
  else
    (ToolOutcome.noResult, [])

/-- The twelve case labels of the dispatcher switch, in source order. -/
def dispatchNames : List String :=
  ["get_token_information", "get_token_information_by_pool",
   "get_token_holders_top", "get_token_ath", "get_tokens_created_by_wallet",
   "search_tokens", "get_latest_tokens", "get_trending_tokens",
   "get_trending_tokens_timeframe", "get_tokens_volume",
   "get_tokens_multi_all", "get_tokens_multi_graduated"]

/-- One entry of the list-tools catalog: tool name, declared parameter
names in source order, and the required list.  Descriptions and primitive
types are elided as claim-irrelevant. -/
structure ToolDescriptor where
  name : String
  properties : List String
  required : List String

/-- The full list-tools catalog (src/build/index.js lines 35-726),
transcribed entry by entry in source order. -/
def catalog : List ToolDescriptor :=
  [⟨"get_token_information", ["tokenAddress"], ["tokenAddress"]⟩,
   ⟨"get_token_information_by_pool", ["poolAddress"], ["poolAddress"]⟩,
   ⟨"get_token_holders_top", ["tokenAddress"], ["tokenAddress"]⟩,
   ⟨"get_token_ath", ["tokenAddress"], ["tokenAddress"]⟩,
   ⟨"get_tokens_created_by_wallet", ["wallet"], ["wallet"]⟩,
   ⟨"search_tokens", searchParamNames, ["query"]⟩,
   ⟨"get_latest_tokens", ["page"], []⟩,
   ⟨"get_trending_tokens", [], []⟩,
   ⟨"get_trending_tokens_timeframe", ["timeframe"], ["timeframe"]⟩,
   ⟨"get_tokens_volume", [], []⟩,
   ⟨"get_tokens_multi_all", [], []⟩,
   ⟨"get_tokens_multi_graduated", [], []⟩,
   ⟨"get_token_price", ["token", "priceChanges"], ["token"]⟩,
   ⟨"get_token_price_history", ["token"], ["token"]⟩,
   ⟨"get_token_price_history_timestamp", ["token", "timestamp"], ["token", "timestamp"]⟩,
   ⟨"get_tokens_price_multi", ["tokens", "priceChanges"], ["tokens"]⟩,
   ⟨"get_wallet_tokens", ["owner"], ["owner"]⟩,
   ⟨"get_wallet_tokens_basic", ["owner"], ["owner"]⟩,
   ⟨"get_wallet_tokens_page", ["owner", "page"], ["owner", "page"]⟩,
   ⟨"get_wallet_trades", ["owner", "cursor"], ["owner"]⟩,
   ⟨"get_trades_token",
     ["tokenAddress", "cursor", "showMeta", "parseJupiter", "hideArb"],
     ["tokenAddress"]⟩,
   ⟨"get_trades_token_pool",
     ["tokenAddress", "poolAddress", "cursor", "showMeta", "parseJupiter", "hideArb"],
     ["tokenAddress", "poolAddress"]⟩,
   ⟨"get_trades_token_pool_owner",
     ["tokenAddress", "poolAddress", "owner", "cursor", "showMeta", "parseJupiter", "hideArb"],
     ["tokenAddress", "poolAddress", "owner"]⟩,
   ⟨"get_trades_token_by_wallet",
     ["tokenAddress", "owner", "cursor", "showMeta", "parseJupiter", "hideArb"],
     ["tokenAddress", "owner"]⟩,
   ⟨"get_chart_token",
     ["token", "type", "time_from", "time_to", "marketCap", "removeOutliers"],
     ["token"]⟩,
   ⟨"get_chart_token_pool",
     ["token", "pool", "type", "time_from", "time_to", "marketCap", "removeOutliers"],
     ["token", "pool"]⟩,
   ⟨"get_pnl_wallet",
     ["wallet", "showHistoricPnL", "holdingCheck", "hideDetails"],
     ["wallet"]⟩,
   ⟨"get_first_buyers", ["token"], ["token"]⟩,
   ⟨"get_pnl_wallet_token", ["wallet", "token"], ["wallet", "token"]⟩,
   ⟨"get_top_traders_all", ["page", "expandPnl", "sortBy"], []⟩,
   ⟨"get_top_traders_token", ["token"], ["token"]⟩,
   ⟨"get_stats_token_pool", ["token", "pool"], ["token", "pool"]⟩,
   ⟨"get_stats_token", ["token"], ["token"]⟩]

/-- The tool names the list-tools handler returns, in order. -/
def catalogNames : List String :=
  catalog.map ToolDescriptor.name

/-- The handler with the server state made explicit.  The JavaScript
handler closure reads the axios instance configuration and assigns to
nothing, so the configuration after an invocation is the configuration
before it. -/
def invokeSt (cfg : Config) (name : String) (args : Args) (u : Upstream) :
    (ToolOutcome × List Request) × Config :=
  (invoke cfg name args u, cfg)

/-- Checks that an outcome, when it is a thrown McpError, carries the
internal-error code. -/
def mcpCodeOk : ToolOutcome → Bool
  | ToolOutcome.mcpError code _ => code == ErrorCode.internalError
  | _ => true

/-- The concrete 200 body used by the specification scenarios: the JSON
object with the single field symbol mapped to ABC. -/
def symbolABC : Json :=
  Json.obj [("symbol", Json.str "ABC")]


/-- Whatever the upstream does, a well-formed standard dispatch case issues
exactly the one request built from the instance configuration. -/
theorem standardCase_requests (cfg : Config) (path : String)
    (query : List (String × String)) (u : Upstream) :
    (standardCase cfg path query u).2 = [mkGet cfg path query] := by
  unfold standardCase
  rcases hu : u (mkGet cfg path query) with ⟨status, statusText, body⟩ | msg
  · by_cases h : status = 200 <;> simp [h]
  · rfl

/-- Every request the get_latest_tokens case issues is either the
latest-tokens request or, on the fall-through after a swallowed transport
error, the trending request. -/
theorem latestTokensCase_mem {cfg : Config} {query : List (String × String)}
    {u : Upstream} {r : Request}
    (hr : r ∈ (latestTokensCase cfg query u).2) :
    r = mkGet cfg "/tokens/latest" query ∨ r = mkGet cfg "/tokens/trending" [] := by
  unfold latestTokensCase at hr
  rcases hu : u (mkGet cfg "/tokens/latest" query) with ⟨status, statusText, body⟩ | msg
  · rw [hu] at hr
    by_cases h : status = 200
    · simp [h] at hr
      exact Or.inl hr
    · simp [h] at hr
      exact Or.inl hr
  · rw [hu] at hr
    rcases List.mem_cons.mp hr with h | h
    · exact Or.inl h
    · rw [standardCase_requests] at h
      exact Or.inr (List.mem_singleton.mp h)

/-- Whatever the upstream does, the truncated graduated case issues exactly
the one request to the graduated path. -/
theorem multiGraduatedCase_requests (cfg : Config) (u : Upstream) :
    (multiGraduatedCase cfg u).2 = [mkGet cfg "/tokens/multi/graduated" []] := by
  unfold multiGraduatedCase
  rcases hu : u (mkGet cfg "/tokens/multi/graduated" []) with ⟨status, statusText, body⟩ | msg
  · by_cases h : status = 200 <;> simp [h]
  · rfl

/-- Every McpError a standard case can raise carries the internal-error
code. -/
theorem standardCase_codeOk (cfg : Config) (path : String)
    (query : List (String × String)) (u : Upstream) :
    mcpCodeOk (standardCase cfg path query u).1 = true := by
  unfold standardCase
  rcases hu : u (mkGet cfg path query) with ⟨status, statusText, body⟩ | msg
  · by_cases h : status = 200 <;> simp [h, mcpCodeOk]
  · simp [mcpCodeOk]

/-- Every McpError the get_latest_tokens case can raise carries the
internal-error code; on the fall-through after a swallowed transport error
the surfaced outcome is the trending standard case, covered by its
lemma. -/
theorem latestTokensCase_codeOk (cfg : Config)
    (query : List (String × String)) (u : Upstream) :
    mcpCodeOk (latestTokensCase cfg query u).1 = true := by
  unfold latestTokensCase
  rcases hu : u (mkGet cfg "/tokens/latest" query) with ⟨status, statusText, body⟩ | msg
  · by_cases h : status = 200 <;> simp [h, mcpCodeOk]
  · exact standardCase_codeOk _ _ _ _

/-- Every McpError the truncated graduated case can raise carries the
internal-error code; its transport-failure outcome is not an McpError at
all, for which mcpCodeOk is vacuously true. -/
theorem multiGraduatedCase_codeOk (cfg : Config) (u : Upstream) :
    mcpCodeOk (multiGraduatedCase cfg u).1 = true := by
  unfold multiGraduatedCase
  rcases hu : u (mkGet cfg "/tokens/multi/graduated" []) with ⟨status, statusText, body⟩ | msg
  · by_cases h : status = 200 <;> simp [h, mcpCodeOk]
  · simp [mcpCodeOk]

/-- A name outside the twelve case labels falls through the switch: the
handler returns undefined and no request is issued.  This ties the
dispatchNames list to the invoke function. -/
theorem invoke_unknown (cfg : Config) (name : String) (args : Args) (u : Upstream)
    (h : name ∉ dispatchNames) :
    invoke cfg name args u = (ToolOutcome.noResult, []) := by
  have h1 : name ≠ "get_token_information" := fun e => h (by rw [e]; decide)
  have h2 : name ≠ "get_token_information_by_pool" := fun e => h (by rw [e]; decide)
  have h3 : name ≠ "get_token_holders_top" := fun e => h (by rw [e]; decide)
  have h4 : name ≠ "get_token_ath" := fun e => h (by rw [e]; decide)
  have h5 : name ≠ "get_tokens_created_by_wallet" := fun e => h (by rw [e]; decide)
  have h6 : name ≠ "search_tokens" := fun e => h (by rw [e]; decide)
  have h7 : name ≠ "get_latest_tokens" := fun e => h (by rw [e]; decide)
  have h8 : name ≠ "get_trending_tokens" := fun e => h (by rw [e]; decide)
  have h9 : name ≠ "get_trending_tokens_timeframe" := fun e => h (by rw [e]; decide)
  have h10 : name ≠ "get_tokens_volume" := fun e => h (by rw [e]; decide)
  have h11 : name ≠ "get_tokens_multi_all" := fun e => h (by rw [e]; decide)
  have h12 : name ≠ "get_tokens_multi_graduated" := fun e => h (by rw [e]; decide)
  unfold invoke
  rw [if_neg h1, if_neg h2, if_neg h3, if_neg h4, if_neg h5, if_neg h6, if_neg h7,
    if_neg h8, if_neg h9, if_neg h10, if_neg h11, if_neg h12]

/-- Every pair the axios params serialization emits comes from a declared
name whose argument value is present. -/
theorem axiosParams_mem {args : Args} {names : List String} {p : String × String}
    (hp : p ∈ axiosParams args names) : jsLookup args p.fst = some p.snd := by
  unfold axiosParams at hp
  rcases List.mem_filterMap.mp hp with ⟨n, hn, hmap⟩
  rcases Option.map_eq_some'.mp hmap with ⟨v, hv, hpv⟩
  cases hpv
  exact hv

/-- C1: the claim says the Catalog names and the dispatcher case labels are
in bijection.  The code violates it: the list-tools Catalog declares 33
tools while the call-tool switch has only 12 case labels; get_token_price
is in the Catalog with no dispatch case, and invoking it returns undefined
with no outbound request. -/
theorem catalog_dispatch_mismatch :
    catalogNames.length = 33
    ∧ dispatchNames.length = 12
    ∧ catalogNames.contains "get_token_price" = true
    ∧ dispatchNames.contains "get_token_price" = false
    ∧ invoke (mkConfig "k") "get_token_price" [("token", "ABC123")]
        (fun _ => UpstreamOutcome.response 200 "OK" (Json.str "B"))
      = (ToolOutcome.noResult, []) :=
  ⟨rfl, rfl, rfl, rfl, rfl⟩

/-- C2: the claim says an unknown tool name yields a Failure of kind
UnknownTool with zero outbound calls.  The code issues zero outbound calls
but, the switch having no default case, produces no error at all: the
handler returns undefined. -/
theorem unknown_tool_no_error_no_call :
    invoke (mkConfig "k") "nonexistent_tool" []
      (fun _ => UpstreamOutcome.response 200 "OK" (Json.str "B"))
    = (ToolOutcome.noResult, []) := rfl

/-- C3 counterexample: the claim says invoking search_tokens with the
required query argument missing returns Failure of kind InvalidArguments
and issues no outbound call.  In the code the invocation issues one GET to
the search path with an empty query string and passes a 200 body through as
a success. -/
theorem search_tokens_missing_query_calls_upstream :
    invoke (mkConfig "k") "search_tokens" []
      (fun _ => UpstreamOutcome.response 200 "OK" (Json.str "B"))
    = (ToolOutcome.success (Json.str "B"), [mkGet (mkConfig "k") "/search" []]) := rfl

/-- C3 amended: no required-parameter validation happens; invoking
search_tokens with the query argument absent issues exactly one outbound
GET to the search path with the query parameter simply omitted from the
serialized parameters. -/
theorem search_tokens_omits_missing_query (k : String) (args : Args) (u : Upstream)
    (h : jsLookup args "query" = none) :
    (invoke (mkConfig k) "search_tokens" args u).2
        = [mkGet (mkConfig k) "/search" (axiosParams args searchParamNames)]
    ∧ ∀ v, ("query", v) ∉ axiosParams args searchParamNames := by
  refine ⟨standardCase_requests _ _ _ _, ?_⟩
  intro v hv
  have h2 : jsLookup args "query" = some v := axiosParams_mem hv
  rw [h] at h2
  exact Option.noConfusion h2

/-- Witness for the amended C3 theorem at a concrete argument object
without a query binding. -/
theorem search_tokens_omits_missing_query_witness :
    jsLookup [("page", "1")] "query" = none
    ∧ ("query", "x") ∉ axiosParams [("page", "1")] searchParamNames :=
  ⟨rfl, (search_tokens_omits_missing_query "k" [("page", "1")]
      (fun _ => UpstreamOutcome.transportError "e") rfl).2 "x"⟩

/-- C4: the claim says every recognized tool returns Success wrapping
exactly the 200 body.  The well-formed cases do (first conjunct, the
specification scenario for get_token_information), but the truncated
get_tokens_multi_graduated case has no return statement on its 200 path, so
the body is dropped and the handler returns undefined (second conjunct). -/
theorem graduated_success_dropped :
    invoke (mkConfig "k") "get_token_information" [("tokenAddress", "ABC123")]
        (fun _ => UpstreamOutcome.response 200 "OK" symbolABC)
      = (ToolOutcome.success symbolABC, [mkGet (mkConfig "k") "/tokens/ABC123" []])
    ∧ invoke (mkConfig "k") "get_tokens_multi_graduated" []
        (fun _ => UpstreamOutcome.response 200 "OK" symbolABC)
      = (ToolOutcome.noResult, [mkGet (mkConfig "k") "/tokens/multi/graduated" []]) :=
  ⟨rfl, rfl⟩

/-- C5: the claim says upstream failures are surfaced as UpstreamError for
every tool, get_latest_tokens included, never silently swallowed, with
exactly one outbound request.  The get_latest_tokens catch clause has an
empty branch for axios errors: the transport failure on the latest request
is swallowed, execution falls through the switch into the
get_trending_tokens case, a second request to the trending path is issued,
and the handler surfaces a Success with the trending body — the failure is
never surfaced and two requests go out instead of one. -/
theorem latest_tokens_swallows_transport_error :
    invoke (mkConfig "k") "get_latest_tokens" [("page", "1")]
      (fun r =>
        if r.path = "/tokens/latest" then UpstreamOutcome.transportError "connection reset"
        else UpstreamOutcome.response 200 "OK" symbolABC)
    = (ToolOutcome.success symbolABC,
       [mkGet (mkConfig "k") "/tokens/latest" [("page", "1")],
        mkGet (mkConfig "k") "/tokens/trending" []]) := rfl

/-- C6: the claim scenario says invoking get_trades_token attaches present
query parameters and omits absent ones.  The code has no get_trades_token
dispatch case at all: the invocation falls through the switch, issuing zero
requests and returning undefined. -/
theorem get_trades_token_unhandled :
    invoke (mkConfig "k") "get_trades_token"
      [("tokenAddress", "ABC123"), ("cursor", "xyz"), ("hideArb", "true")]
      (fun _ => UpstreamOutcome.response 200 "OK" symbolABC)
    = (ToolOutcome.noResult, []) := rfl

/-- C7: every outbound request any invocation of any tool issues uses the
GET method, is addressed to the one fixed base URL, and carries the static
API-key header. -/
theorem all_requests_get_base_apikey :
    ∀ (k name : String) (args : Args) (u : Upstream) (r : Request),
      r ∈ (invoke (mkConfig k) name args u).2 →
        r.method = HttpMethod.get ∧ r.baseURL = "https://data.solanatracker.io"
          ∧ r.headers = [("x-api-key", k)] := by
  intro k name args u r hr
  have hGet : ∀ path query, r = mkGet (mkConfig k) path query →
      r.method = HttpMethod.get ∧ r.baseURL = "https://data.solanatracker.io"
        ∧ r.headers = [("x-api-key", k)] := by
    rintro path query rfl
    exact ⟨rfl, rfl, rfl⟩
  have hsingle : ∀ path query, r ∈ [mkGet (mkConfig k) path query] →
      r.method = HttpMethod.get ∧ r.baseURL = "https://data.solanatracker.io"
        ∧ r.headers = [("x-api-key", k)] :=
    fun path query hmem => hGet path query (List.mem_singleton.mp hmem)
  unfold invoke at hr
  by_cases h1 : name = "get_token_information"
  · rw [if_pos h1, standardCase_requests] at hr; exact hsingle _ _ hr
  rw [if_neg h1] at hr
  by_cases h2 : name = "get_token_information_by_pool"
  · rw [if_pos h2, standardCase_requests] at hr; exact hsingle _ _ hr
  rw [if_neg h2] at hr
  by_cases h3 : name = "get_token_holders_top"
  · rw [if_pos h3, standardCase_requests] at hr; exact hsingle _ _ hr
  rw [if_neg h3] at hr
  by_cases h4 : name = "get_token_ath"
  · rw [if_pos h4, standardCase_requests] at hr; exact hsingle _ _ hr
  rw [if_neg h4] at hr
  by_cases h5 : name = "get_tokens_created_by_wallet"
  · rw [if_pos h5, standardCase_requests] at hr; exact hsingle _ _ hr
  rw [if_neg h5] at hr
  by_cases h6 : name = "search_tokens"
  · rw [if_pos h6, standardCase_requests] at hr; exact hsingle _ _ hr
  rw [if_neg h6] at hr
  by_cases h7 : name = "get_latest_tokens"
  · rw [if_pos h7] at hr
    rcases latestTokensCase_mem hr with h | h
    · exact hGet _ _ h
    · exact hGet _ _ h
  rw [if_neg h7] at hr
  by_cases h8 : name = "get_trending_tokens"
  · rw [if_pos h8, standardCase_requests] at hr; exact hsingle _ _ hr
  rw [if_neg h8] at hr
  by_cases h9 : name = "get_trending_tokens_timeframe"
  · rw [if_pos h9, standardCase_requests] at hr; exact hsingle _ _ hr
  rw [if_neg h9] at hr
  by_cases h10 : name = "get_tokens_volume"
  · rw [if_pos h10, standardCase_requests] at hr; exact hsingle _ _ hr
  rw [if_neg h10] at hr
  by_cases h11 : name = "get_tokens_multi_all"
  · rw [if_pos h11, standardCase_requests] at hr; exact hsingle _ _ hr
  rw [if_neg h11] at hr
  by_cases h12 : name = "get_tokens_multi_graduated"
  · rw [if_pos h12, multiGraduatedCase_requests] at hr; exact hsingle _ _ hr
  rw [if_neg h12] at hr
  exact absurd hr (List.not_mem_nil r)

/-- Witness for C7 at a concrete invocation whose one request is the
volume-path GET. -/
theorem all_requests_get_base_apikey_witness :
    (mkGet (mkConfig "k") "/tokens/volume" []).method = HttpMethod.get
    ∧ (mkGet (mkConfig "k") "/tokens/volume" []).baseURL = "https://data.solanatracker.io"
    ∧ (mkGet (mkConfig "k") "/tokens/volume" []).headers = [("x-api-key", "k")] :=
  all_requests_get_base_apikey "k" "get_tokens_volume" []
    (fun _ => UpstreamOutcome.transportError "e")
    (mkGet (mkConfig "k") "/tokens/volume" []) (List.mem_singleton.mpr rfl)

/-- C8: paths are built by raw template-literal interpolation with no
URL-encoding: for each of the six dispatched path-parameter tools the
issued path splices the looked-up argument through jsInterp, which is the
raw identity on a present string and the literal text undefined on an
absent one; in particular the get_token_information invocation without a
tokenAddress issues the path /tokens/undefined. -/
theorem path_raw_interpolation :
    ∀ (k : String) (args : Args) (u : Upstream),
      (invoke (mkConfig k) "get_token_information" args u).2
          = [mkGet (mkConfig k) ("/tokens/" ++ jsInterp (jsLookup args "tokenAddress")) []]
      ∧ (invoke (mkConfig k) "get_token_information_by_pool" args u).2
          = [mkGet (mkConfig k) ("/tokens/by-pool/" ++ jsInterp (jsLookup args "poolAddress")) []]
      ∧ (invoke (mkConfig k) "get_token_holders_top" args u).2
          = [mkGet (mkConfig k) ("/tokens/" ++ jsInterp (jsLookup args "tokenAddress") ++ "/holders/top") []]
      ∧ (invoke (mkConfig k) "get_token_ath" args u).2
          = [mkGet (mkConfig k) ("/tokens/" ++ jsInterp (jsLookup args "tokenAddress") ++ "/ath") []]
      ∧ (invoke (mkConfig k) "get_tokens_created_by_wallet" args u).2
          = [mkGet (mkConfig k) ("/deployer/" ++ jsInterp (jsLookup args "wallet")) []]
      ∧ (invoke (mkConfig k) "get_trending_tokens_timeframe" args u).2
          = [mkGet (mkConfig k) ("/tokens/trending/" ++ jsInterp (jsLookup args "timeframe")) []]
      ∧ (∀ s, jsInterp (some s) = s)
      ∧ jsInterp none = "undefined"
      ∧ (invoke (mkConfig k) "get_token_information" [] u).2
          = [mkGet (mkConfig k) "/tokens/undefined" []] := by
  intro k args u
  refine ⟨?_, ?_, ?_, ?_, ?_, ?_, fun s => rfl, rfl, ?_⟩
  · exact standardCase_requests _ _ _ _
  · exact standardCase_requests _ _ _ _
  · exact standardCase_requests _ _ _ _
  · exact standardCase_requests _ _ _ _
  · exact standardCase_requests _ _ _ _
  · exact standardCase_requests _ _ _ _
  · exact standardCase_requests _ _ _ _

/-- C9: the dispatcher is stateless and deterministic.  With the server
state (the read-only axios configuration) made explicit, an invocation
leaves the state unchanged, a later invocation is unaffected by an earlier
one, and repeating an invocation with the same inputs and the same modeled
upstream yields the identical result. -/
theorem dispatch_stateless_deterministic :
    ∀ (cfg : Config) (n : String) (a : Args) (u : Upstream)
      (n2 : String) (a2 : Args) (u2 : Upstream),
      (invokeSt cfg n a u).2 = cfg
      ∧ invokeSt (invokeSt cfg n a u).2 n2 a2 u2 = invokeSt cfg n2 a2 u2
      ∧ (invokeSt (invokeSt cfg n a u).2 n a u).1 = (invokeSt cfg n a u).1 :=
  fun _ _ _ _ _ _ _ => ⟨rfl, rfl, rfl⟩

/-- C10 counterexample: the claim says every surfaced error is an McpError
carrying the internal-error code.  The truncated get_tokens_multi_graduated
case has no catch clause, so an axios transport failure propagates out of
the handler as a raw, non-McpError exception. -/
theorem graduated_transport_error_unwrapped :
    (invoke (mkConfig "k") "get_tokens_multi_graduated" []
      (fun _ => UpstreamOutcome.transportError "socket hang up")).1
    = ToolOutcome.thrown "socket hang up" := rfl

/-- C10 amended: every McpError the dispatcher raises, for any tool,
arguments and upstream behavior, carries the one internal-error code, so
the error kinds of the specification are distinguishable only by the
message string; the truncated graduated case can additionally surface a
raw non-McpError exception, as the counterexample shows. -/
theorem mcp_errors_all_internal_code :
    ∀ (cfg : Config) (name : String) (args : Args) (u : Upstream),
      mcpCodeOk (invoke cfg name args u).1 = true := by
  intro cfg name args u
  unfold invoke
  by_cases h1 : name = "get_token_information"
  · rw [if_pos h1]; exact standardCase_codeOk _ _ _ _
  rw [if_neg h1]
  by_cases h2 : name = "get_token_information_by_pool"
  · rw [if_pos h2]; exact standardCase_codeOk _ _ _ _
  rw [if_neg h2]
  by_cases h3 : name = "get_token_holders_top"
  · rw [if_pos h3]; exact standardCase_codeOk _ _ _ _
  rw [if_neg h3]
  by_cases h4 : name = "get_token_ath"
  · rw [if_pos h4]; exact standardCase_codeOk _ _ _ _
  rw [if_neg h4]
  by_cases h5 : name = "get_tokens_created_by_wallet"
  · rw [if_pos h5]; exact standardCase_codeOk _ _ _ _
  rw [if_neg h5]
  by_cases h6 : name = "search_tokens"
  · rw [if_pos h6]; exact standardCase_codeOk _ _ _ _
  rw [if_neg h6]
  by_cases h7 : name = "get_latest_tokens"
  · rw [if_pos h7]; exact latestTokensCase_codeOk _ _ _
  rw [if_neg h7]
  by_cases h8 : name = "get_trending_tokens"
  · rw [if_pos h8]; exact standardCase_codeOk _ _ _ _
  rw [if_neg h8]
  by_cases h9 : name = "get_trending_tokens_timeframe"
  · rw [if_pos h9]; exact standardCase_codeOk _ _ _ _
  rw [if_neg h9]
  by_cases h10 : name = "get_tokens_volume"
  · rw [if_pos h10]; exact standardCase_codeOk _ _ _ _
  rw [if_neg h10]
  by_cases h11 : name = "get_tokens_multi_all"
  · rw [if_pos h11]; exact standardCase_codeOk _ _ _ _
  rw [if_neg h11]
  by_cases h12 : name = "get_tokens_multi_graduated"
  · rw [if_pos h12]; exact multiGraduatedCase_codeOk _ _
  rw [if_neg h12]
  rfl

end SolanaTracker
